import Mathlib

/-!
Shallow embedding of the AiHelpDesk application: the two stateless relay
endpoints (`POST /api/chat`, `POST /api/vision`) and the chat-page component
state (display transcript, provider-format history, localStorage persistence,
screen-share session).  JavaScript dynamic values are embedded as an explicit
JSON-like inductive; the JavaScript `||` operator on strings is embedded with
its real falsiness semantics (undefined, null and the empty string are falsy).
External calls (the model provider, the UI fetch) are embedded as explicit
outcome parameters.
-/

namespace AiHelpDesk

/-- JSON-like values: parsed JavaScript request bodies. -/
inductive JValue where
  | null : JValue
  | bool (b : Bool) : JValue
  | num (n : Int) : JValue
  | str (s : String) : JValue
  | arr (xs : List JValue) : JValue
  | obj (fields : List (String × JValue)) : JValue

/-- JavaScript property access `body.key` on a parsed JSON value: a field of an
object when present, otherwise undefined (`none`). -/
def jsGet : JValue → String → Option JValue
  | JValue.obj fields, key => (fields.find? (fun f => f.1 == key)).map (fun f => f.2)
  | _, _ => none

/-- JavaScript `s || d` where `s` is a possibly-absent string: undefined, null
and the empty string are falsy, so they all select the fallback `d`. -/
def jsOrString (s : Option String) (d : String) : String :=
  match s with
  | none => d
  | some v => if v = "" then d else v

/-- A response body produced by either relay endpoint: either
`\x7b error: msg \x7d` or `\x7b result: msg \x7d`. -/
inductive ApiBody where
  | errorBody (msg : String)
  | resultBody (msg : String)
deriving DecidableEq, Repr

/-- The observable result of one invocation of a relay route: HTTP status,
JSON body, and whether the provider (openai.chat.completions.create) was
invoked. -/
structure RouteResult where
  status : Nat
  body : ApiBody
  providerCalled : Bool
deriving DecidableEq, Repr

/-- Outcome of the provider call `openai.chat.completions.create`:
on success it carries `response.choices[0]?.message?.content` (`none` when the
optional chain yields undefined or null); on a thrown exception it carries
`err.message` (`none` when absent). -/
inductive ProviderOutcome where
  | success (content : Option String)
  | failure (errMessage : Option String)
deriving DecidableEq, Repr

/-- `POST /api/chat` (app/api/chat/route.ts): validates that `body.messages`
is a non-empty array, forwards it to the provider, and maps the provider
outcome to `\x7b result \x7d` (with fallback text) or a 500 `\x7b error \x7d`.
The try/catch makes the route total: every provider exception becomes a
500 response. -/
def chatPOST (body : JValue) (provider : ProviderOutcome) : RouteResult :=
  match jsGet body "messages" with
  | some (JValue.arr msgs) =>
      if msgs.isEmpty then
        { status := 400, body := ApiBody.errorBody "No messages provided.", providerCalled := false }
      else
        match provider with
        | ProviderOutcome.success content =>
            { status := 200
              body := ApiBody.resultBody (jsOrString content "Sorry, I couldn't generate a response.")
              providerCalled := true }
        | ProviderOutcome.failure errMessage =>
            { status := 500
              body := ApiBody.errorBody (jsOrString errMessage "Unknown error")
              providerCalled := true }
  | _ =>
      { status := 400, body := ApiBody.errorBody "No messages provided.", providerCalled := false }

/-- An uploaded binary blob: MIME type plus raw bytes. -/
structure Blob where
  mime : String
  data : List Nat
deriving DecidableEq, Repr

/-- A multipart form-data field value: a file (Blob) or a plain text string. -/
inductive FormValue where
  | file (b : Blob)
  | text (s : String)
deriving DecidableEq, Repr

/-- `formData.get(key)`: the first entry with the given name, or null. -/
def formGet (form : List (String × FormValue)) (key : String) : Option FormValue :=
  (form.find? (fun f => f.1 == key)).map (fun f => f.2)

/-- The base64 alphabet character at index `n`. -/
def base64Char (n : Nat) : Char :=
  "ABCDEFGHIJKLMNOPQRSTUVWXYZabcdefghijklmnopqrstuvwxyz0123456789+/".toList.getD n 'A'

/-- `buffer.toString("base64")`: standard base64 with `=` padding. -/
def base64Encode : List Nat → String
  | [] => ""
  | [b1] =>
      let n := b1 % 256 * 65536
      String.mk [base64Char (n / 262144 % 64), base64Char (n / 4096 % 64), '=', '=']
  | [b1, b2] =>
      let n := b1 % 256 * 65536 + b2 % 256 * 256
      String.mk [base64Char (n / 262144 % 64), base64Char (n / 4096 % 64),
                 base64Char (n / 64 % 64), '=']
  | b1 :: b2 :: b3 :: rest =>
      let n := b1 % 256 * 65536 + b2 % 256 * 256 + b3 % 256
      String.mk [base64Char (n / 262144 % 64), base64Char (n / 4096 % 64),
                 base64Char (n / 64 % 64), base64Char (n % 64)] ++ base64Encode rest

/-- The inline data-URL image reference built by the vision route. -/
def dataUrl (file : Blob) : String :=
  "data:" ++ file.mime ++ ";base64," ++ base64Encode file.data

/-- The fixed system prompt shared by the vision route and the UI history. -/
def systemPromptText : String :=
  "You are a helpful IT support assistant for non-technical users. Explain things simply and step by step."

/-- One part of the multimodal user-turn content sent by the vision route. -/
inductive VisionPart where
  | textPart (text : String)
  | imageUrlPart (url : String)

/-- Content of a provider message in the vision request: a plain string
(system turn) or a list of multimodal parts (user turn). -/
inductive VisionContent where
  | plain (s : String)
  | parts (ps : List VisionPart)

/-- One message of the single-turn multimodal request of the vision route. -/
structure VisionReqMessage where
  role : String
  content : VisionContent

/-- The fixed two-message payload the vision route sends to the provider. -/
def visionProviderMessages (prompt : String) (file : Blob) : List VisionReqMessage :=
  [ { role := "system", content := VisionContent.plain systemPromptText },
    { role := "user"
      content := VisionContent.parts
        [ VisionPart.textPart prompt, VisionPart.imageUrlPart (dataUrl file) ] } ]

/-- The shared tail of the vision route after validation: the provider outcome
mapped to `\x7b result \x7d` (with the screenshot fallback) or a 500
`\x7b error \x7d`. -/
def visionProviderCall (provider : ProviderOutcome) : RouteResult :=
  match provider with
  | ProviderOutcome.success content =>
      { status := 200
        body := ApiBody.resultBody (jsOrString content "Sorry, I couldn't analyze the screenshot.")
        providerCalled := true }
  | ProviderOutcome.failure errMessage =>
      { status := 500
        body := ApiBody.errorBody (jsOrString errMessage "Unknown error")
        providerCalled := true }

/-- `POST /api/vision` (app/api/vision/route.ts): requires an `image` field
that is a Blob (`!file || !(file instanceof Blob)`) and a truthy `prompt`
field (`!prompt`), then calls the provider with the multimodal payload.
A prompt field holding a file object is truthy, so it passes the check. -/
def visionPOST (form : List (String × FormValue)) (provider : ProviderOutcome) : RouteResult :=
  match formGet form "image" with
  | some (FormValue.file _) =>
      match formGet form "prompt" with
      | some (FormValue.text p) =>
          if p = "" then
            { status := 400, body := ApiBody.errorBody "No prompt provided.", providerCalled := false }
          else
            visionProviderCall provider
      | some (FormValue.file _) => visionProviderCall provider
      | none =>
          { status := 400, body := ApiBody.errorBody "No prompt provided.", providerCalled := false }
  | _ =>
      { status := 400, body := ApiBody.errorBody "No image uploaded.", providerCalled := false }

/-- `Message` (app/page.tsx): one bubble of the display transcript. -/
structure Message where
  sender : String
  text : String
  imageUrl : Option String := none
deriving DecidableEq, Repr

/-- Role of a provider-format history turn (`OpenAIMessage.role`). -/
inductive Role where
  | system
  | user
  | assistant
deriving DecidableEq, Repr

/-- `OpenAIMessage` (app/page.tsx): one turn of the provider-format history. -/
structure OpenAIMessage where
  role : Role
  content : String
deriving DecidableEq, Repr

/-- One track of a screen-capture MediaStream.  `live` is the track state;
`releases` counts live-to-ended transitions, i.e. how often the underlying
capture resource has been released. -/
structure MediaTrack where
  live : Bool
  releases : Nat
deriving DecidableEq, Repr

/-- `track.stop()` and equally the browser-side end-of-stream transition:
a live track becomes ended and its capture resource is released; on an
already-ended track it is a no-op (the resource is not released again). -/
def trackStop (t : MediaTrack) : MediaTrack :=
  if t.live then { live := false, releases := t.releases + 1 } else t

/-- The component state of the chat page: display transcript, pending input,
pending image, loading flag, screen-share session (stream handle, flag, video
element source) and provider-format history. -/
structure UIState where
  messages : List Message
  input : String
  image : Option Blob
  isLoading : Bool
  screenStream : Option (List MediaTrack)
  isScreenSharing : Bool
  videoSrc : Option (List MediaTrack)
  chatHistory : List OpenAIMessage
deriving DecidableEq, Repr

/-- The fixed system turn that starts every provider-format history. -/
def systemMessage : OpenAIMessage :=
  { role := Role.system, content := systemPromptText }

/-- The initial component state (the useState defaults). -/
def initialState : UIState :=
  { messages := []
    input := ""
    image := none
    isLoading := false
    screenStream := none
    isScreenSharing := false
    videoSrc := none
    chatHistory := [systemMessage] }

/-- Models the browser `URL.createObjectURL`: an opaque local-only object URL
for a blob (its text is never inspected by the application). -/
def objectURL (_b : Blob) : String :=
  "blob:local-object-url"

/-- Outcome of a UI `fetch` to one of its own relay endpoints: the promise
resolves and `res.json()` yields a relay body, or the fetch rejects
(network failure), which lands in the catch branch. -/
inductive FetchOutcome where
  | ok (data : ApiBody)
  | networkError
deriving DecidableEq, Repr

/-- `data.result` on a parsed relay body. -/
def jsDataResult : ApiBody → Option String
  | ApiBody.resultBody r => some r
  | ApiBody.errorBody _ => none

/-- `data.error` on a parsed relay body. -/
def jsDataError : ApiBody → Option String
  | ApiBody.errorBody e => some e
  | ApiBody.resultBody _ => none

/-- `data.result || data.error || fallback`: the bubble text the UI shows for
a resolved fetch. -/
def displayText (data : ApiBody) (fallback : String) : String :=
  jsOrString (jsDataResult data) (jsOrString (jsDataError data) fallback)

/-- `data.result || ""`: the assistant-turn content appended to the
provider-format history after a resolved text-chat fetch. -/
def assistantContent (data : ApiBody) : String :=
  jsOrString (jsDataResult data) ""

/-- The default prompt substituted when the user submits an image with an
empty text input. -/
def defaultVisionPrompt : String :=
  "Please help me with this issue."

/-- The multipart form the UI builds for the vision endpoint, both in
handleSend (image branch) and in handleCaptureScreenShotFromStream:
the image blob plus `prompt = input || "Please help me with this issue."`. -/
def uiVisionForm (image : Blob) (input : String) : List (String × FormValue) :=
  [ ("image", FormValue.file image)
  , ("prompt", FormValue.text (jsOrString (some input) defaultVisionPrompt)) ]

/-- `handleSend` (app/page.tsx): guard on empty input and no image; append the
user bubble and clear the pending input and image; then either the vision path
(image present: one reply bubble appended, history untouched) or the text path
(user turn appended to history, then on a resolved fetch the reply bubble and
an assistant turn, on a rejected fetch an error bubble only).  The fetch
outcome is passed in explicitly. -/
def handleSend (s : UIState) (outcome : FetchOutcome) : UIState :=
  if s.input = "" ∧ s.image = none then s
  else
    let newMsg : Message :=
      { sender := "user", text := s.input, imageUrl := s.image.map objectURL }
    let s1 : UIState :=
      { s with messages := s.messages ++ [newMsg], input := "", image := none, isLoading := true }
    match s.image with
    | some _ =>
        match outcome with
        | FetchOutcome.ok data =>
            { s1 with
                messages := s1.messages ++
                  [{ sender := "ai"
                     text := displayText data "Sorry, I couldn't analyze the screenshot." }]
                isLoading := false }
        | FetchOutcome.networkError =>
            { s1 with
                messages := s1.messages ++
                  [{ sender := "ai"
                     text := "Sorry, there was an error analyzing your screenshot." }]
                isLoading := false }
    | none =>
        let newHistory := s.chatHistory ++ [{ role := Role.user, content := s.input }]
        match outcome with
        | FetchOutcome.ok data =>
            { s1 with
                messages := s1.messages ++
                  [{ sender := "ai"
                     text := displayText data "Sorry, I couldn't generate a response." }]
                chatHistory := newHistory ++
                  [{ role := Role.assistant, content := assistantContent data }]
                isLoading := false }
        | FetchOutcome.networkError =>
            { s1 with
                messages := s1.messages ++
                  [{ sender := "ai"
                     text := "Sorry, there was an error getting a response from the AI." }]
                chatHistory := newHistory
                isLoading := false }

/-- The two localStorage entries (`ai-helpdesk-messages`,
`ai-helpdesk-chatHistory`), held at the value level: JSON serialization of
these record types round-trips, so a stored entry is the parsed list and
`none` is an absent key. -/
structure Storage where
  savedMessages : Option (List Message)
  savedChatHistory : Option (List OpenAIMessage)
deriving DecidableEq, Repr

/-- `handleClearChat`: reset the transcript to empty and the history to the
single fixed system turn, and remove both persisted entries. -/
def handleClearChat (s : UIState) (_st : Storage) : UIState × Storage :=
  ( { s with messages := [], chatHistory := [systemMessage] }
  , { savedMessages := none, savedChatHistory := none } )

/-- The two save useEffects: after any change to either sequence, both are
serialized back into storage. -/
def persistEffects (s : UIState) : Storage :=
  { savedMessages := some s.messages, savedChatHistory := some s.chatHistory }

/-- The mount-time restore useEffect over the initial component state: each
saved entry, when present, replaces the corresponding default. -/
def mountRestore (st : Storage) : UIState :=
  { initialState with
      messages := st.savedMessages.getD initialState.messages
      chatHistory := st.savedChatHistory.getD initialState.chatHistory }

/-- `handleStartScreenShare` when getDisplayMedia resolves with `stream`:
store the stream, raise the sharing flag, attach the stream to the video
element.  (The ended listener it registers is embedded as
`browserEndedSignal`.) -/
def handleStartScreenShare (s : UIState) (stream : List MediaTrack) : UIState :=
  { s with screenStream := some stream, isScreenSharing := true, videoSrc := some stream }

/-- `handleStopScreenShare`: stop every track of the held stream, drop the
stream handle, lower the sharing flag, detach the video element.  The second
component is the final state of the tracks that were held, which the pure
embedding returns so the released resources stay observable. -/
def handleStopScreenShare (s : UIState) : UIState × List MediaTrack :=
  match s.screenStream with
  | some tracks =>
      ( { s with screenStream := none, isScreenSharing := false, videoSrc := none }
      , tracks.map trackStop )
  | none =>
      ( { s with screenStream := none, isScreenSharing := false, videoSrc := none }
      , [] )

/-- The browser-native stop-sharing affordance: every track of the held stream
ends (end-of-stream), after which the ended listener registered by
handleStartScreenShare runs handleStopScreenShare on the updated state. -/
def browserEndedSignal (s : UIState) : UIState × List MediaTrack :=
  handleStopScreenShare { s with screenStream := s.screenStream.map (List.map trackStop) }

/-- From the spec wording (refinement check for the chat route): a
ProviderMessage-shaped object is an object carrying `role` and `content`
fields. -/
def specProviderMessageShaped : JValue → Bool
  | JValue.obj fields =>
      (fields.find? (fun f => f.1 == "role")).isSome &&
      (fields.find? (fun f => f.1 == "content")).isSome
  | _ => false

/-- Helper: a form with a Blob image and a non-empty text prompt passes both
validation checks of the vision route and reaches the provider call. -/
theorem visionPOST_valid (form : List (String × FormValue)) (b : Blob) (p : String)
    (hfile : formGet form "image" = some (FormValue.file b))
    (hprompt : formGet form "prompt" = some (FormValue.text p)) (hpne : p ≠ "")
    (provider : ProviderOutcome) :
    visionPOST form provider = visionProviderCall provider := by
  unfold visionPOST
  rw [hfile, hprompt]
  exact if_neg hpne

/-- Helper: the JavaScript fallback chain never yields the empty string when
its fallback is non-empty. -/
theorem jsOrString_nonempty (s : Option String) (d : String) (hd : d ≠ "") :
    jsOrString s d ≠ "" := by
  cases s with
  | none => simpa [jsOrString] using hd
  | some v => by_cases hv : v = "" <;> simp [jsOrString, hv, hd]

end AiHelpDesk

namespace AiHelpDesk

/-- C1 counterexample: a body whose `messages` is a non-empty array holding a
value that is not ProviderMessage-shaped (the number 1) is not rejected with
400: the route forwards it to the provider and answers 200. -/
theorem chat_shape_unvalidated_cx :
    specProviderMessageShaped (JValue.num 1) = false ∧
    (chatPOST (JValue.obj [("messages", JValue.arr [JValue.num 1])])
        (ProviderOutcome.success (some "hi"))).status = 200 ∧
    (chatPOST (JValue.obj [("messages", JValue.arr [JValue.num 1])])
        (ProviderOutcome.success (some "hi"))).providerCalled = true :=
  ⟨rfl, rfl, rfl⟩

/-- C1 (amended): whenever the body lacks `messages`, or `messages` is not an
array, or it is the empty array, the chat route returns 400 with the
explanatory message and makes no provider call.  (The shape of individual
elements is not validated.) -/
theorem chat_validation (body : JValue) (provider : ProviderOutcome)
    (h : ∀ msgs, jsGet body "messages" = some (JValue.arr msgs) → msgs = []) :
    chatPOST body provider =
      { status := 400, body := ApiBody.errorBody "No messages provided."
        providerCalled := false } := by
  unfold chatPOST
  cases hj : jsGet body "messages" with
  | none => rfl
  | some v =>
      cases v with
      | arr msgs =>
          have hm := h msgs hj
          subst hm
          rfl
      | null => rfl
      | bool b => rfl
      | num n => rfl
      | str s => rfl
      | obj fields => rfl

/-- C1 witness: the amended theorem at the concrete body `\x7b\x7d` (no
`messages` field at all). -/
theorem chat_validation_witness :
    chatPOST (JValue.obj []) (ProviderOutcome.success (some "hi")) =
      { status := 400, body := ApiBody.errorBody "No messages provided."
        providerCalled := false } :=
  chat_validation (JValue.obj []) (ProviderOutcome.success (some "hi"))
    (fun _msgs hm => by cases hm)

/-- C2: a missing or non-Blob `image` field yields 400 with
"No image uploaded.", and (with a Blob image) a missing or empty `prompt`
field yields 400 with "No prompt provided."; in both cases no provider call
is made. -/
theorem vision_validation (form : List (String × FormValue)) (provider : ProviderOutcome) :
    ((∀ b : Blob, formGet form "image" ≠ some (FormValue.file b)) →
      visionPOST form provider =
        { status := 400, body := ApiBody.errorBody "No image uploaded."
          providerCalled := false }) ∧
    (∀ b : Blob, formGet form "image" = some (FormValue.file b) →
      (formGet form "prompt" = none ∨ formGet form "prompt" = some (FormValue.text "")) →
      visionPOST form provider =
        { status := 400, body := ApiBody.errorBody "No prompt provided."
          providerCalled := false }) := by
  constructor
  · intro h
    unfold visionPOST
    cases hi : formGet form "image" with
    | none => rfl
    | some v =>
        cases v with
        | file b => exact absurd hi (h b)
        | text s => rfl
  · intro b hb hp
    unfold visionPOST
    rw [hb]
    rcases hp with hp | hp
    · rw [hp]
    · rw [hp]
      rfl

/-- C2 witness: the empty form hits the image branch, and a form with an image
blob but no prompt hits the prompt branch. -/
theorem vision_validation_witness :
    visionPOST [] (ProviderOutcome.success (some "hi")) =
      { status := 400, body := ApiBody.errorBody "No image uploaded."
        providerCalled := false } ∧
    visionPOST [("image", FormValue.file { mime := "image/png", data := [1] })]
        (ProviderOutcome.success (some "hi")) =
      { status := 400, body := ApiBody.errorBody "No prompt provided."
        providerCalled := false } :=
  ⟨(vision_validation [] (ProviderOutcome.success (some "hi"))).1
      (fun _b hb => by cases hb),
   (vision_validation [("image", FormValue.file { mime := "image/png", data := [1] })]
        (ProviderOutcome.success (some "hi"))).2
      { mime := "image/png", data := [1] } rfl (Or.inl rfl)⟩

/-- C3: on a valid request and a successful provider call, both routes answer
200 with `result` equal to the first choice content, with the route's fixed
fallback substituted when that content is absent, null or empty; hence
`result` is never the empty string. -/
theorem relay_success_result (content : Option String) (body : JValue)
    (msgs : List JValue) (hmsgs : jsGet body "messages" = some (JValue.arr msgs))
    (hne : msgs ≠ [])
    (form : List (String × FormValue)) (b : Blob) (p : String)
    (hfile : formGet form "image" = some (FormValue.file b))
    (hprompt : formGet form "prompt" = some (FormValue.text p)) (hpne : p ≠ "") :
    chatPOST body (ProviderOutcome.success content) =
      { status := 200
        body := ApiBody.resultBody (jsOrString content "Sorry, I couldn't generate a response.")
        providerCalled := true } ∧
    jsOrString content "Sorry, I couldn't generate a response." ≠ "" ∧
    visionPOST form (ProviderOutcome.success content) =
      { status := 200
        body := ApiBody.resultBody (jsOrString content "Sorry, I couldn't analyze the screenshot.")
        providerCalled := true } ∧
    jsOrString content "Sorry, I couldn't analyze the screenshot." ≠ "" := by
  refine ⟨?_, jsOrString_nonempty _ _ (by decide), ?_, jsOrString_nonempty _ _ (by decide)⟩
  · unfold chatPOST
    rw [hmsgs]
    cases msgs with
    | nil => exact absurd rfl hne
    | cons a as => rfl
  · rw [visionPOST_valid form b p hfile hprompt hpne]
    rfl

/-- C3 witness: a one-message chat body and a complete vision form, with the
provider returning "All good". -/
theorem relay_success_result_witness :
    chatPOST (JValue.obj [("messages", JValue.arr [JValue.str "hello"])])
        (ProviderOutcome.success (some "All good")) =
      { status := 200, body := ApiBody.resultBody "All good", providerCalled := true } ∧
    "All good" ≠ "" ∧
    visionPOST [("image", FormValue.file { mime := "image/png", data := [1] }),
                ("prompt", FormValue.text "help")]
        (ProviderOutcome.success (some "All good")) =
      { status := 200, body := ApiBody.resultBody "All good", providerCalled := true } ∧
    "All good" ≠ "" :=
  relay_success_result (some "All good")
    (JValue.obj [("messages", JValue.arr [JValue.str "hello"])])
    [JValue.str "hello"] rfl (by simp)
    [("image", FormValue.file { mime := "image/png", data := [1] }),
     ("prompt", FormValue.text "help")]
    { mime := "image/png", data := [1] } "help" rfl rfl (by decide)

/-- C4: on a valid request whose provider call throws, both routes catch the
exception and answer 500 with `error` equal to the thrown message, with
"Unknown error" substituted when the message is absent or empty; the embedded
routes are total functions, so the exception never propagates. -/
theorem relay_provider_error (errMessage : Option String) (body : JValue)
    (msgs : List JValue) (hmsgs : jsGet body "messages" = some (JValue.arr msgs))
    (hne : msgs ≠ [])
    (form : List (String × FormValue)) (b : Blob) (p : String)
    (hfile : formGet form "image" = some (FormValue.file b))
    (hprompt : formGet form "prompt" = some (FormValue.text p)) (hpne : p ≠ "") :
    chatPOST body (ProviderOutcome.failure errMessage) =
      { status := 500
        body := ApiBody.errorBody (jsOrString errMessage "Unknown error")
        providerCalled := true } ∧
    visionPOST form (ProviderOutcome.failure errMessage) =
      { status := 500
        body := ApiBody.errorBody (jsOrString errMessage "Unknown error")
        providerCalled := true } := by
  constructor
  · unfold chatPOST
    rw [hmsgs]
    cases msgs with
    | nil => exact absurd rfl hne
    | cons a as => rfl
  · rw [visionPOST_valid form b p hfile hprompt hpne]
    rfl

/-- C4 witness: a valid chat body and a valid vision form with the provider
throwing an exception carrying the message "boom". -/
theorem relay_provider_error_witness :
    chatPOST (JValue.obj [("messages", JValue.arr [JValue.str "hello"])])
        (ProviderOutcome.failure (some "boom")) =
      { status := 500, body := ApiBody.errorBody "boom", providerCalled := true } ∧
    visionPOST [("image", FormValue.file { mime := "image/png", data := [1] }),
                ("prompt", FormValue.text "help")]
        (ProviderOutcome.failure (some "boom")) =
      { status := 500, body := ApiBody.errorBody "boom", providerCalled := true } :=
  relay_provider_error (some "boom")
    (JValue.obj [("messages", JValue.arr [JValue.str "hello"])])
    [JValue.str "hello"] rfl (by simp)
    [("image", FormValue.file { mime := "image/png", data := [1] }),
     ("prompt", FormValue.text "help")]
    { mime := "image/png", data := [1] } "help" rfl rfl (by decide)

/-- C5: a text-only send (no pending image, non-empty input) appends the user
turn and then the assistant turn to the provider-format history when the fetch
resolves with a result (length n+2), and only the user turn when the fetch
rejects (length n+1). -/
theorem text_send_history (s : UIState) (r : String)
    (himg : s.image = none) (hin : s.input ≠ "") :
    (handleSend s (FetchOutcome.ok (ApiBody.resultBody r))).chatHistory =
      s.chatHistory ++
        [{ role := Role.user, content := s.input },
         { role := Role.assistant, content := assistantContent (ApiBody.resultBody r) }] ∧
    (handleSend s (FetchOutcome.ok (ApiBody.resultBody r))).chatHistory.length =
      s.chatHistory.length + 2 ∧
    (handleSend s FetchOutcome.networkError).chatHistory =
      s.chatHistory ++ [{ role := Role.user, content := s.input }] ∧
    (handleSend s FetchOutcome.networkError).chatHistory.length =
      s.chatHistory.length + 1 := by
  refine ⟨?_, ?_, ?_, ?_⟩ <;> simp [handleSend, hin, himg]

/-- C5 witness: the first turn "printer not working" grows the history from
length 1 to length 3 on success and to length 2 on network failure. -/
theorem text_send_history_witness :
    (handleSend { initialState with input := "printer not working" }
        (FetchOutcome.ok (ApiBody.resultBody "try this"))).chatHistory =
      [systemMessage,
       { role := Role.user, content := "printer not working" },
       { role := Role.assistant, content := "try this" }] ∧
    (handleSend { initialState with input := "printer not working" }
        (FetchOutcome.ok (ApiBody.resultBody "try this"))).chatHistory.length = 3 ∧
    (handleSend { initialState with input := "printer not working" }
        FetchOutcome.networkError).chatHistory =
      [systemMessage, { role := Role.user, content := "printer not working" }] ∧
    (handleSend { initialState with input := "printer not working" }
        FetchOutcome.networkError).chatHistory.length = 2 :=
  text_send_history { initialState with input := "printer not working" } "try this"
    rfl (by decide)

/-- C6: an image-bearing submission appends exactly two display bubbles (the
user turn plus one reply bubble), whatever the fetch outcome, and leaves the
provider-format history unchanged. -/
theorem image_send_history_unchanged (s : UIState) (img : Blob) (outcome : FetchOutcome)
    (himg : s.image = some img) :
    (handleSend s outcome).messages.length = s.messages.length + 2 ∧
    (handleSend s outcome).chatHistory = s.chatHistory := by
  have hguard : ¬(s.input = "" ∧ s.image = none) := fun hc => by
    simp [himg] at hc
  cases outcome <;> simp [handleSend, hguard, himg]

/-- C6 witness: a first-turn image submission leaves the history at the single
system turn and shows exactly two bubbles. -/
theorem image_send_history_unchanged_witness :
    (handleSend
        { initialState with
            input := "what does this error mean?"
            image := some { mime := "image/png", data := [9] } }
        (FetchOutcome.ok (ApiBody.resultBody "It is a driver error."))).messages.length = 2 ∧
    (handleSend
        { initialState with
            input := "what does this error mean?"
            image := some { mime := "image/png", data := [9] } }
        (FetchOutcome.ok (ApiBody.resultBody "It is a driver error."))).chatHistory =
      [systemMessage] :=
  image_send_history_unchanged
    { initialState with
        input := "what does this error mean?"
        image := some { mime := "image/png", data := [9] } }
    { mime := "image/png", data := [9] }
    (FetchOutcome.ok (ApiBody.resultBody "It is a driver error.")) rfl

/-- C7: clearing the chat from any state empties the transcript, resets the
history to the single fixed system turn and removes both persisted entries;
a reload then restores the empty transcript and the single system turn,
whether it reads the cleared storage directly or the storage re-written by
the save effects that run after the clear. -/
theorem clear_chat_roundtrip (s : UIState) (st : Storage) :
    (handleClearChat s st).1.messages = [] ∧
    (handleClearChat s st).1.chatHistory = [systemMessage] ∧
    (handleClearChat s st).2.savedMessages = none ∧
    (handleClearChat s st).2.savedChatHistory = none ∧
    (mountRestore (handleClearChat s st).2).messages = [] ∧
    (mountRestore (handleClearChat s st).2).chatHistory = [systemMessage] ∧
    (mountRestore (persistEffects (handleClearChat s st).1)).messages = [] ∧
    (mountRestore (persistEffects (handleClearChat s st).1)).chatHistory = [systemMessage] :=
  ⟨rfl, rfl, rfl, rfl, rfl, rfl, rfl, rfl⟩

/-- C8: explicit stop and the browser end-of-stream signal transition the
component state identically back to not-sharing, and every track of a freshly
acquired stream has been released exactly once on either path. -/
theorem stop_share_paths (s : UIState) (tracks : List MediaTrack)
    (hs : s.screenStream = some tracks)
    (hfresh : ∀ t ∈ tracks, t = { live := true, releases := 0 }) :
    (handleStopScreenShare s).1 = (browserEndedSignal s).1 ∧
    (handleStopScreenShare s).1.isScreenSharing = false ∧
    (handleStopScreenShare s).1.screenStream = none ∧
    ((handleStopScreenShare s).2.all fun t => t.releases == 1) = true ∧
    ((browserEndedSignal s).2.all fun t => t.releases == 1) = true := by
  have h1 : (handleStopScreenShare s).2 = tracks.map trackStop := by
    simp [handleStopScreenShare, hs]
  have h2 : (browserEndedSignal s).2 = (tracks.map trackStop).map trackStop := by
    simp [browserEndedSignal, handleStopScreenShare, hs]
  have hst1 : (handleStopScreenShare s).1 =
      { s with screenStream := none, isScreenSharing := false, videoSrc := none } := by
    simp [handleStopScreenShare, hs]
  have hst2 : (browserEndedSignal s).1 =
      { s with screenStream := none, isScreenSharing := false, videoSrc := none } := by
    simp [browserEndedSignal, handleStopScreenShare, hs]
  refine ⟨hst1.trans hst2.symm, ?_, ?_, ?_, ?_⟩
  · rw [hst1]
  · rw [hst1]
  · rw [h1, List.all_eq_true]
    intro t ht
    obtain ⟨u, hu, rfl⟩ := List.mem_map.mp ht
    rw [hfresh u hu]
    rfl
  · rw [h2, List.all_eq_true]
    intro t ht
    obtain ⟨v, hv, rfl⟩ := List.mem_map.mp ht
    obtain ⟨u, hu, rfl⟩ := List.mem_map.mp hv
    rw [hfresh u hu]
    rfl

/-- C8 witness: a sharing session holding one fresh live track, stopped by
either path. -/
theorem stop_share_paths_witness :
    (handleStopScreenShare
        { initialState with
            screenStream := some [{ live := true, releases := 0 }]
            isScreenSharing := true
            videoSrc := some [{ live := true, releases := 0 }] }).1 =
      (browserEndedSignal
        { initialState with
            screenStream := some [{ live := true, releases := 0 }]
            isScreenSharing := true
            videoSrc := some [{ live := true, releases := 0 }] }).1 ∧
    (handleStopScreenShare
        { initialState with
            screenStream := some [{ live := true, releases := 0 }]
            isScreenSharing := true
            videoSrc := some [{ live := true, releases := 0 }] }).1.isScreenSharing = false ∧
    (handleStopScreenShare
        { initialState with
            screenStream := some [{ live := true, releases := 0 }]
            isScreenSharing := true
            videoSrc := some [{ live := true, releases := 0 }] }).1.screenStream = none ∧
    ((handleStopScreenShare
        { initialState with
            screenStream := some [{ live := true, releases := 0 }]
            isScreenSharing := true
            videoSrc := some [{ live := true, releases := 0 }] }).2.all
      fun t => t.releases == 1) = true ∧
    ((browserEndedSignal
        { initialState with
            screenStream := some [{ live := true, releases := 0 }]
            isScreenSharing := true
            videoSrc := some [{ live := true, releases := 0 }] }).2.all
      fun t => t.releases == 1) = true :=
  stop_share_paths
    { initialState with
        screenStream := some [{ live := true, releases := 0 }]
        isScreenSharing := true
        videoSrc := some [{ live := true, releases := 0 }] }
    [{ live := true, releases := 0 }] rfl (by decide)

/-- C9: every UI-built vision form carries a non-empty prompt (the fixed
default is substituted for empty input), so neither 400 branch of the vision
route can fire on a UI-originated request: the provider is always called. -/
theorem ui_vision_prompt_safe (input : String) (img : Blob) (provider : ProviderOutcome) :
    jsOrString (some input) defaultVisionPrompt ≠ "" ∧
    (visionPOST (uiVisionForm img input) provider).status ≠ 400 ∧
    (visionPOST (uiVisionForm img input) provider).providerCalled = true := by
  have hpne : jsOrString (some input) defaultVisionPrompt ≠ "" :=
    jsOrString_nonempty (some input) defaultVisionPrompt (by decide)
  have hv := visionPOST_valid (uiVisionForm img input) img
    (jsOrString (some input) defaultVisionPrompt) rfl rfl hpne provider
  refine ⟨hpne, ?_, ?_⟩ <;> rw [hv] <;> cases provider <;> simp [visionProviderCall]

/-- C10 counterexample: when the resolved body is an error response whose
error string is empty, the displayed bubble text is the fixed fallback, not
the response error string. -/
theorem ui_error_display_cx :
    jsDataResult (ApiBody.errorBody "") = none ∧
    (handleSend { initialState with input := "hi" }
        (FetchOutcome.ok (ApiBody.errorBody ""))).messages.map Message.text =
      ["hi", "Sorry, I couldn't generate a response."] ∧
    ("Sorry, I couldn't generate a response." : String) ≠ "" :=
  ⟨rfl, rfl, by decide⟩

/-- C10 (amended): a text-only send whose fetch resolves with a body lacking
`result` (an error body) still appends an assistant turn with empty content,
growing the history to length n+2, and the displayed bubble text is the
response error string when that string is non-empty, the fixed fallback
otherwise. -/
theorem ui_error_display (s : UIState) (e : String)
    (himg : s.image = none) (hin : s.input ≠ "") :
    (handleSend s (FetchOutcome.ok (ApiBody.errorBody e))).chatHistory =
      s.chatHistory ++
        [{ role := Role.user, content := s.input },
         { role := Role.assistant, content := "" }] ∧
    (handleSend s (FetchOutcome.ok (ApiBody.errorBody e))).chatHistory.length =
      s.chatHistory.length + 2 ∧
    (handleSend s (FetchOutcome.ok (ApiBody.errorBody e))).messages =
      s.messages ++
        [{ sender := "user", text := s.input, imageUrl := none },
         { sender := "ai"
           text := if e = "" then "Sorry, I couldn't generate a response." else e
           imageUrl := none }] := by
  refine ⟨?_, ?_, ?_⟩ <;>
    simp [handleSend, hin, himg, displayText, assistantContent,
          jsDataResult, jsDataError, jsOrString]

/-- C10 witness: a send against a 500 body with error "boom": the history
ends with an empty assistant turn and the bubble shows "boom". -/
theorem ui_error_display_witness :
    (handleSend { initialState with input := "hi" }
        (FetchOutcome.ok (ApiBody.errorBody "boom"))).chatHistory =
      [systemMessage, { role := Role.user, content := "hi" },
       { role := Role.assistant, content := "" }] ∧
    (handleSend { initialState with input := "hi" }
        (FetchOutcome.ok (ApiBody.errorBody "boom"))).chatHistory.length = 3 ∧
    (handleSend { initialState with input := "hi" }
        (FetchOutcome.ok (ApiBody.errorBody "boom"))).messages =
      [{ sender := "user", text := "hi", imageUrl := none },
       { sender := "ai", text := "boom", imageUrl := none }] :=
  ui_error_display { initialState with input := "hi" } "boom" rfl (by decide)

end AiHelpDesk
